import Mathlib

/-!
Verification of the try-on backend core (rate limiter, AI gateway,
session store, generation orchestrator, status API) against its
natural-language specification.  The Python source is shallowly embedded:
timestamps are integers (seconds), mutation is explicit state passing,
fallible calls return `Except`/`Option`, and external collaborators
(Firestore, blob storage, the generative-AI transport, `json.loads`,
`base64.b64decode`) are parameters of the embedded functions.
-/

namespace Ponpa

deriving instance DecidableEq for Except

/-- Timestamps, in seconds (Python `datetime` values abstracted). -/
abbrev Timestamp := Int

/-! ## Rate limiter (`app/services/ai_service.py`, class `RateLimiter`) -/

/-- State of `RateLimiter`: the two window sequences plus the two caps. -/
structure RateLimiter where
  requests_per_minute : Nat
  tokens_per_minute : Nat
  request_timestamps : List Timestamp
  token_usage : List (Timestamp × Nat)
  deriving Repr, DecidableEq

namespace RateLimiter

/-- The pruning step of `can_make_request`: drop entries with
`ts <= now - 60` (the Python keeps `ts > one_minute_ago`). -/
def prune (rl : RateLimiter) (now : Timestamp) : RateLimiter :=
  { rl with
    request_timestamps := rl.request_timestamps.filter (fun ts => now - 60 < ts)
    token_usage := rl.token_usage.filter (fun p => now - 60 < p.1) }

/-- `RateLimiter.can_make_request(estimated_tokens)`.  Prunes both
sequences (a mutation, so the pruned limiter is returned), then checks the
request-count cap and the token cap. -/
def can_make_request (rl : RateLimiter) (now : Timestamp) (estimated_tokens : Nat) :
    Bool × RateLimiter :=
  let rl := rl.prune now
  if rl.request_timestamps.length ≥ rl.requests_per_minute then (false, rl)
  else
    let current_tokens := (rl.token_usage.map Prod.snd).sum
    if current_tokens + estimated_tokens > rl.tokens_per_minute then (false, rl)
    else (true, rl)

/-- `RateLimiter.record_request(tokens_used)`: append the current
timestamp and the token weight. -/
def record_request (rl : RateLimiter) (now : Timestamp) (tokens_used : Nat) :
    RateLimiter :=
  { rl with
    request_timestamps := rl.request_timestamps ++ [now]
    token_usage := rl.token_usage ++ [(now, tokens_used)] }

end RateLimiter

end Ponpa

namespace Ponpa

/-- The token sum of a limiter's current window. -/
def RateLimiter.tokenSum (rl : RateLimiter) : Nat :=
  (rl.token_usage.map Prod.snd).sum

/-! ## AI gateway (`app/services/ai_service.py`, class `AIService`) -/

/-- Splitting a character sequence at whitespace runs, discarding empty
pieces (the behaviour of Python `s.split()` with no separator); the
second argument accumulates the current word, reversed. -/
def splitWordsAux : List Char → List Char → List String
  | [], acc => if acc = [] then [] else [String.mk acc.reverse]
  | c :: cs, acc =>
    if c.isWhitespace then
      if acc = [] then splitWordsAux cs []
      else String.mk acc.reverse :: splitWordsAux cs []
    else splitWordsAux cs (c :: acc)

/-- Python `len(s.split())`: the number of whitespace-separated words. -/
def wordCount (s : String) : Nat :=
  (splitWordsAux s.data []).length

/-- One `AIUsage` telemetry record (the float `request_duration` is
abstracted away; no claim concerns it). -/
structure AIUsage where
  timestamp : Timestamp
  model : String
  prompt_tokens : Nat
  completion_tokens : Nat
  total_tokens : Nat
  success : Bool
  error_message : Option String
  deriving Repr, DecidableEq

/-- The mutable state of an `AIService` instance: whether the provider
client was configured (`client is not None`), the configured model name,
the rate limiter, and the in-memory usage log. -/
structure AIServiceState where
  available : Bool
  model : String
  rateLimiter : RateLimiter
  usage_history : List AIUsage
  deriving Repr, DecidableEq

/-- Outcome of one underlying `client.generate_content` transport call for
a text request: an exception message, or the `response.text` value. -/
abbrev TextTransport := Except String String

/-- One part of a provider response to an image request. -/
inductive ResponsePart where
  | inlineData (data : List Nat)
  | functionCall
  | text (s : String)
  deriving Repr, DecidableEq

/-- Outcome of one transport call for an image request: an exception
message, or the list of response parts. -/
abbrev ImageTransport := Except String (List ResponsePart)

/-- The rate-limit error message raised at `ai_service.py:125`. -/
def rateLimitError : String := "Rate limit exceeded, please try again later"

/-- The availability error message raised at `ai_service.py:121`. -/
def notAvailableError : String := "AI service is not available"

namespace AIServiceState

/-- A failed-attempt usage record, as built in the `finally` block of
`_make_ai_request`. -/
def failUsage (st : AIServiceState) (now : Timestamp) (prompt : String)
    (err : String) : AIUsage :=
  { timestamp := now, model := st.model
    prompt_tokens := if prompt ≠ "" then wordCount prompt else 0
    completion_tokens := 0, total_tokens := 0
    success := false, error_message := some err }

/-- One invocation of the body of `_make_ai_request` (one retry attempt).
The availability and rate-limit checks precede the `try` block, so their
failures record no usage; transport outcomes are recorded in the
`finally` block, one entry per attempt. -/
def make_ai_request_attempt (st : AIServiceState) (now : Timestamp)
    (prompt : String) (transport : TextTransport) :
    Except String String × AIServiceState :=
  match st.available with
  | false => (Except.error notAvailableError, st)
  | true =>
    match st.rateLimiter.can_make_request now 100 with
    | (false, rl) => (Except.error rateLimitError, { st with rateLimiter := rl })
    | (true, rl) =>
      let st := { st with rateLimiter := rl }
      match transport with
      | Except.error e =>
        (Except.error e,
         { st with usage_history := st.usage_history ++ [st.failUsage now prompt e] })
      | Except.ok text =>
        if text ≠ "" then
          let tokens_used := wordCount prompt + wordCount text
          let rl := st.rateLimiter.record_request now tokens_used
          let usage : AIUsage :=
            { timestamp := now, model := st.model
              prompt_tokens := if prompt ≠ "" then wordCount prompt else 0
              completion_tokens := tokens_used, total_tokens := tokens_used
              success := true, error_message := none }
          (Except.ok text,
           { st with rateLimiter := rl, usage_history := st.usage_history ++ [usage] })
        else
          (Except.error "Empty response from AI service",
           { st with usage_history :=
               st.usage_history ++
                 [st.failUsage now prompt "Empty response from AI service"] })

/-- `_make_ai_request` with its tenacity
`retry(stop=stop_after_attempt(3))` decorator, unrolled to the three
bounded attempts: each attempt re-runs the whole function body (checks
included) with its own `(timestamp, transport)` outcome; the first
success returns, and after the third failed attempt the last error is
propagated.  Also returns the number of attempts made (successful
attempts come with backoff-free returns; failed ones are separated by the
decorator's exponential backoff, which has no observable state here). -/
def make_ai_request (st : AIServiceState) (prompt : String)
    (o1 o2 o3 : Timestamp × TextTransport) :
    Except String String × AIServiceState × Nat :=
  match st.make_ai_request_attempt o1.1 prompt o1.2 with
  | (Except.ok v, st1) => (Except.ok v, st1, 1)
  | (Except.error _, st1) =>
    match st1.make_ai_request_attempt o2.1 prompt o2.2 with
    | (Except.ok v, st2) => (Except.ok v, st2, 2)
    | (Except.error _, st2) =>
      match st2.make_ai_request_attempt o3.1 prompt o3.2 with
      | (Except.ok v, st3) => (Except.ok v, st3, 3)
      | (Except.error e, st3) => (Except.error e, st3, 3)

/-- A failed-attempt usage record for `_make_ai_image_request`
(`completion_tokens` is always 0 for image responses). -/
def failImageUsage (st : AIServiceState) (now : Timestamp) (prompt : String)
    (err : String) : AIUsage :=
  { timestamp := now, model := st.model
    prompt_tokens := if prompt ≠ "" then wordCount prompt else 0
    completion_tokens := 0, total_tokens := 0
    success := false, error_message := some err }

/-- The part-scanning loop of `_make_ai_image_request`: the first part
carrying inline binary data wins; a text part is tried as base64 (the
decoder is the external `base64.b64decode`, passed in); function calls
and undecodable text parts are skipped. -/
def scanParts (b64decode : String → Option (List Nat)) :
    List ResponsePart → Option (List Nat)
  | [] => none
  | ResponsePart.inlineData d :: _ => some d
  | ResponsePart.functionCall :: rest => scanParts b64decode rest
  | ResponsePart.text s :: rest =>
    if s ≠ "" then
      match b64decode s with
      | some d => some d
      | none => scanParts b64decode rest
    else scanParts b64decode rest

/-- One invocation of the body of `_make_ai_image_request`.  The
availability and rate-limit checks are identical to the text path
(rate-limit admission uses the default `estimated_tokens = 100`);
`tokens_used` on success is the prompt word count alone. -/
def make_ai_image_request_attempt (st : AIServiceState) (now : Timestamp)
    (prompt : String) (b64decode : String → Option (List Nat))
    (transport : ImageTransport) :
    Except String (List Nat) × AIServiceState :=
  match st.available with
  | false => (Except.error notAvailableError, st)
  | true =>
    match st.rateLimiter.can_make_request now 100 with
    | (false, rl) => (Except.error rateLimitError, { st with rateLimiter := rl })
    | (true, rl) =>
      let st := { st with rateLimiter := rl }
      match transport with
      | Except.error e =>
        (Except.error e,
         { st with usage_history :=
             st.usage_history ++ [st.failImageUsage now prompt e] })
      | Except.ok parts =>
        match scanParts b64decode parts with
        | some data =>
          let tokens_used := wordCount prompt
          let rl := st.rateLimiter.record_request now tokens_used
          let usage : AIUsage :=
            { timestamp := now, model := st.model
              prompt_tokens := if prompt ≠ "" then wordCount prompt else 0
              completion_tokens := 0, total_tokens := tokens_used
              success := true, error_message := none }
          (Except.ok data,
           { st with rateLimiter := rl, usage_history := st.usage_history ++ [usage] })
        | none =>
          (Except.error "No image data found in AI response",
           { st with usage_history :=
               st.usage_history ++
                 [st.failImageUsage now prompt "No image data found in AI response"] })

/-- `_make_ai_image_request` with its 3-attempt retry decorator,
unrolled like `make_ai_request`. -/
def make_ai_image_request (st : AIServiceState) (prompt : String)
    (b64decode : String → Option (List Nat))
    (o1 o2 o3 : Timestamp × ImageTransport) :
    Except String (List Nat) × AIServiceState × Nat :=
  match st.make_ai_image_request_attempt o1.1 prompt b64decode o1.2 with
  | (Except.ok v, st1) => (Except.ok v, st1, 1)
  | (Except.error _, st1) =>
    match st1.make_ai_image_request_attempt o2.1 prompt b64decode o2.2 with
    | (Except.ok v, st2) => (Except.ok v, st2, 2)
    | (Except.error _, st2) =>
      match st2.make_ai_image_request_attempt o3.1 prompt b64decode o3.2 with
      | (Except.ok v, st3) => (Except.ok v, st3, 3)
      | (Except.error e, st3) => (Except.error e, st3, 3)

end AIServiceState

/-! ## Session store (`app/models/tryon_session.py`) -/

/-- `TryOnStatus` enumeration. -/
inductive TryOnStatus where
  | pending
  | in_progress
  | completed
  | failed
  | cancelled
  deriving Repr, DecidableEq

/-- The fields of a stored `TryOnSession` document that the core workflow
reads or writes (datetimes are `Timestamp`s; the float
`generation_time_seconds` is abstracted to `Int`). -/
structure SessionDoc where
  session_id : String
  user_uid : String
  outfit_id : String
  clothing_item_ids : List String
  status : TryOnStatus
  progress_percentage : Nat
  generated_image_url : Option String
  ai_description : Option String
  created_at : Timestamp
  started_at : Option Timestamp
  completed_at : Option Timestamp
  updated_at : Option Timestamp
  error_message : Option String
  ai_model_used : Option String
  generation_time_seconds : Option Int
  deriving Repr, DecidableEq

/-- `TryOnSessionService.create_session`: a fresh document, status
`PENDING`, progress 0, no outputs (the generated uuid is a parameter). -/
def create_session (session_id user_uid outfit_id : String)
    (clothing_item_ids : List String) (now : Timestamp) : SessionDoc :=
  { session_id := session_id, user_uid := user_uid, outfit_id := outfit_id
    clothing_item_ids := clothing_item_ids
    status := TryOnStatus.pending, progress_percentage := 0
    generated_image_url := none, ai_description := none
    created_at := now, started_at := none, completed_at := none
    updated_at := none, error_message := none
    ai_model_used := none, generation_time_seconds := none }

/-- The `generation_metadata` dict passed to `update_session_status`.  The
orchestrator passes the keys `ai_model_used`, `generation_time_seconds`
and `completed_at`; `has_started_at_key` records whether the dict carries
a `started_at` key (it never does in this repository), which the
`started_at`-stamping guard inspects. -/
structure GenerationMetadata where
  ai_model_used : Option String
  generation_time_seconds : Option Int
  completed_at : Option Timestamp
  has_started_at_key : Bool
  deriving Repr, DecidableEq

/-- The keyword arguments of one `update_session_status` call. -/
structure UpdateArgs where
  status : TryOnStatus
  progress : Option Nat
  error_message : Option String
  generated_image_url : Option String
  ai_description : Option String
  generation_metadata : Option GenerationMetadata
  deriving Repr, DecidableEq

/-- Step of `update_session_status`: `if progress is not None:
update_data['progress_percentage'] = progress`. -/
def applyProgress (pr : Option Nat) (s : SessionDoc) : SessionDoc :=
  match pr with
  | some p => { s with progress_percentage := p }
  | none => s

/-- Step of `update_session_status`: `if error_message:` (truthy, so empty
strings are not written). -/
def applyErrorMessage (em : Option String) (s : SessionDoc) : SessionDoc :=
  match em with
  | some e => if e ≠ "" then { s with error_message := some e } else s
  | none => s

/-- Step of `update_session_status`: `if generated_image_url:` writes the
URL and stamps `completed_at`. -/
def applyImageUrl (gu : Option String) (now : Timestamp) (s : SessionDoc) :
    SessionDoc :=
  match gu with
  | some u =>
    if u ≠ "" then { s with generated_image_url := some u, completed_at := some now }
    else s
  | none => s

/-- Step of `update_session_status`: `if ai_description:`. -/
def applyDescription (ad : Option String) (s : SessionDoc) : SessionDoc :=
  match ad with
  | some d => if d ≠ "" then { s with ai_description := some d } else s
  | none => s

/-- Step of `update_session_status`:
`if generation_metadata: update_data.update(generation_metadata)` — merged
after the URL step, so its `completed_at` key overrides. -/
def applyMetadata (gm : Option GenerationMetadata) (s : SessionDoc) : SessionDoc :=
  match gm with
  | some m =>
    let t1 := match m.ai_model_used with
      | some v => { s with ai_model_used := some v }
      | none => s
    let t2 := match m.generation_time_seconds with
      | some v => { t1 with generation_time_seconds := some v }
      | none => t1
    match m.completed_at with
    | some v => { t2 with completed_at := some v }
    | none => t2
  | none => s

/-- Whether the `generation_metadata` dict contributes a `started_at` key
to the update payload. -/
def metadataHasStartedAt (gm : Option GenerationMetadata) : Bool :=
  match gm with
  | some m => m.has_started_at_key
  | none => false

/-- Step of `update_session_status`: `if status == IN_PROGRESS and
'started_at' not in update_data:` — the membership test inspects the
update payload, not the stored document. -/
def applyStartedAt (status : TryOnStatus) (gm : Option GenerationMetadata)
    (now : Timestamp) (s : SessionDoc) : SessionDoc :=
  if status = TryOnStatus.in_progress ∧ metadataHasStartedAt gm = false then
    { s with started_at := some now }
  else s

/-- `TryOnSessionService.update_session_status` applied to the stored
document.  Faithful to the Python `update_data` construction: `status` and
`updated_at` always written; `progress` written when not `None`;
`error_message`, `generated_image_url`, `ai_description` written when
truthy (non-empty); a truthy `generated_image_url` also stamps
`completed_at`; `generation_metadata` is merged afterwards (its
`completed_at` overriding); finally `started_at` is stamped whenever the
new status is `IN_PROGRESS` and the update payload itself has no
`started_at` key — the guard looks at `update_data`, not at the stored
document. -/
def update_session_status (s : SessionDoc) (now : Timestamp) (a : UpdateArgs) :
    SessionDoc :=
  applyStartedAt a.status a.generation_metadata now
    (applyMetadata a.generation_metadata
      (applyDescription a.ai_description
        (applyImageUrl a.generated_image_url now
          (applyErrorMessage a.error_message
            (applyProgress a.progress
              { s with status := a.status, updated_at := some now })))))

/-- Sequential application of `update_session_status` calls. -/
def applyUpdates : SessionDoc → List (Timestamp × UpdateArgs) → SessionDoc
  | s, [] => s
  | s, (t, a) :: rest => applyUpdates (update_session_status s t a) rest

/-! ## Generation orchestrator
(`app/api/endpoints/tryon.py`, `generate_try_on_image_task`) -/

/-- The dict built for each clothing item resolved by the task. -/
structure ClothingItemDict where
  id : String
  name : String
  category : String
  brand : String
  colors : List String
  size : String
  description : String
  tags : List String
  image_urls : List String
  deriving Repr, DecidableEq

/-- The slice of an outfit the task reads. -/
structure OutfitRec where
  clothing_item_ids : List String
  deriving Repr, DecidableEq

/-- Results of the external collaborators consumed by one run of
`generate_try_on_image_task`: the session fetch, the outfit fetch, the
clothing items that loaded successfully, AI-gateway availability, the
image-generation outcome with its measured duration, the blob-storage
save result (`save_generated_image_to_storage` returns `None` on
failure), the description-generation outcome, the configured model name
and the completion wall-clock time. -/
structure TaskEnv where
  session : Option SessionDoc
  outfit : Option OutfitRec
  resolvedItems : List ClothingItemDict
  aiAvailable : Bool
  imageGen : Except String (List Nat)
  generationTime : Int
  savedUrl : Option String
  descriptionGen : Except String String
  model : String
  completionTime : Timestamp
  deriving Repr

/-- An `IN_PROGRESS` update carrying only a progress value. -/
def mkInProgress (p : Nat) : UpdateArgs :=
  { status := TryOnStatus.in_progress, progress := some p
    error_message := none, generated_image_url := none
    ai_description := none, generation_metadata := none }

/-- A `FAILED` update carrying only an error message (no progress). -/
def mkFailed (msg : String) : UpdateArgs :=
  { status := TryOnStatus.failed, progress := none
    error_message := some msg, generated_image_url := none
    ai_description := none, generation_metadata := none }

/-- `generate_try_on_image_task` as the ordered sequence of
`update_session_status` calls it issues, given the collaborator results.
Mirrors the source control flow: `IN_PROGRESS(10)`; session fetch; outfit
fetch; item resolution (zero items → `FAILED` "No clothing items found");
`IN_PROGRESS(30)`; availability check; `IN_PROGRESS(50)`; image
generation (an exception → `FAILED` "Image generation failed: ...");
`IN_PROGRESS(80)`; blob save (falsy URL → `FAILED`); best-effort
description (fallback sentence on failure); final `COMPLETED(100)` with
URL, description and telemetry metadata. -/
def generate_try_on_image_task (env : TaskEnv) : List UpdateArgs :=
  let u10 := mkInProgress 10
  match env.session with
  | none => [u10, mkFailed "Session not found"]
  | some _ =>
    match env.outfit with
    | none => [u10, mkFailed "Outfit not found"]
    | some _ =>
      if env.resolvedItems.isEmpty then
        [u10, mkFailed "No clothing items found"]
      else
        let u30 := mkInProgress 30
        if env.aiAvailable = false then
          [u10, u30, mkFailed "AI service not available"]
        else
          let u50 := mkInProgress 50
          match env.imageGen with
          | Except.error e =>
            [u10, u30, u50, mkFailed ("Image generation failed: " ++ e)]
          | Except.ok _ =>
            let u80 := mkInProgress 80
            match env.savedUrl with
            | none => [u10, u30, u50, u80, mkFailed "Failed to save generated image"]
            | some url =>
              if url = "" then
                [u10, u30, u50, u80, mkFailed "Failed to save generated image"]
              else
                let description := match env.descriptionGen with
                  | Except.ok d => d
                  | Except.error _ => "Virtual try-on image generated successfully."
                [u10, u30, u50, u80,
                 { status := TryOnStatus.completed, progress := some 100
                   error_message := none
                   generated_image_url := some url
                   ai_description := some description
                   generation_metadata := some
                     { ai_model_used := some env.model
                       generation_time_seconds := some env.generationTime
                       completed_at := some env.completionTime
                       has_started_at_key := false } }]

/-! ## Status API (`app/api/endpoints/tryon.py`, `get_try_on_status`) -/

/-- The `TryOnSessionResponse` view returned by the status endpoint. -/
structure StatusView where
  session_id : String
  status : TryOnStatus
  progress_percentage : Nat
  generated_image_url : Option String
  ai_description : Option String
  error_message : Option String
  created_at : Timestamp
  completed_at : Option Timestamp
  estimated_completion_time : Option Nat
  deriving Repr, DecidableEq

/-- `get_try_on_status` given the (ownership-filtered) session lookup
result: 404 when absent; otherwise the response view, computing
`estimated_completion_time` only for `PENDING`/`IN_PROGRESS` — 60 flat for
`PENDING`, else `int(remaining_progress * 0.5)`, which for the stored
0–100 progress equals `(100 - progress) / 2` in integer division. -/
def get_try_on_status (session : Option SessionDoc) : Except String StatusView :=
  match session with
  | none => Except.error "Session not found"
  | some s =>
    let estimated_completion_time : Option Nat :=
      if s.status = TryOnStatus.pending ∨ s.status = TryOnStatus.in_progress then
        if s.status = TryOnStatus.pending then some 60
        else some ((100 - s.progress_percentage) / 2)
      else none
    Except.ok
      { session_id := s.session_id, status := s.status
        progress_percentage := s.progress_percentage
        generated_image_url := s.generated_image_url
        ai_description := s.ai_description
        error_message := s.error_message
        created_at := s.created_at
        completed_at := s.completed_at
        estimated_completion_time := estimated_completion_time }

/-! ## Compatibility-analysis response parsing
(`app/services/ai_service.py`, `_parse_compatibility_response`) -/

/-- The dict shape of a compatibility-analysis result. -/
structure CompatResult where
  compatibility_score : Nat
  color_harmony : Nat
  style_coherence : Nat
  occasion_appropriateness : Nat
  overall_assessment : String
  strengths : List String
  areas_for_improvement : List String
  deriving Repr, DecidableEq

/-- Python `s.find(c)`: index of the first occurrence, `-1` if absent. -/
def pyFind (s : String) (c : Char) : Int :=
  match s.data.findIdx? (fun x => x = c) with
  | some i => Int.ofNat i
  | none => -1

/-- Python `s.rfind(c)`: index of the last occurrence, `-1` if absent. -/
def pyRfind (s : String) (c : Char) : Int :=
  match s.data.reverse.findIdx? (fun x => x = c) with
  | some i => Int.ofNat (s.data.length - 1 - i)
  | none => -1

/-- Python `s[start:stop]` for `0 ≤ start ≤ stop`. -/
def pySlice (s : String) (start stop : Int) : String :=
  String.mk ((s.data.take stop.toNat).drop start.toNat)

/-- The JSON-candidate extraction of `_parse_compatibility_response`:
`start = response.find(chr(123))`, `end = response.rfind(chr(125)) + 1`, and
the slice is attempted only when `start >= 0 and end > start`. -/
def extractCandidate (response : String) : Option String :=
  let start := pyFind response '\x7b'
  let stop := pyRfind response '\x7d' + 1
  if start ≥ 0 ∧ stop > start then some (pySlice response start stop) else none

/-- The fallback `overall_assessment`:
`response[:200] + "..." if len(response) > 200 else response`. -/
def fallbackAssessment (response : String) : String :=
  if response.length > 200 then String.mk (response.data.take 200) ++ "..."
  else response

/-- `_parse_compatibility_response`; `jsonLoads` abstracts the external
`json.loads` applied to the extracted slice (`none` both when it raises
and, composed with `extractCandidate`, when no slice is attempted). -/
def parse_compatibility_response (jsonLoads : String → Option CompatResult)
    (response : String) : CompatResult :=
  match (extractCandidate response).bind jsonLoads with
  | some r => r
  | none =>
    { compatibility_score := 7, color_harmony := 7, style_coherence := 7
      occasion_appropriateness := 7
      overall_assessment := fallbackAssessment response
      strengths := ["AI analysis available"]
      areas_for_improvement := ["See full response for details"] }

/-! ## Theorems -/

/-- C5 (counterexample): the claim's "strictly below the tokens-per-minute
cap" fails at the boundary.  With caps `requests_per_minute = 1`,
`tokens_per_minute = 100`, empty window sequences and
`estimated_tokens = 100`, the pruned token sum plus the estimate equals
the cap — not strictly below it — yet `can_make_request` returns true,
because the code rejects only on `current + estimated > tokens_per_minute`. -/
theorem can_make_request_boundary_counterexample :
    (RateLimiter.can_make_request ⟨1, 100, [], []⟩ 0 100).1 = true ∧
    ¬ ((((⟨1, 100, [], []⟩ : RateLimiter).prune 0).token_usage.map Prod.snd).sum + 100 <
        (⟨1, 100, [], []⟩ : RateLimiter).tokens_per_minute) := by
  decide

/-- C5 (amended): `can_make_request(estimated_tokens)` prunes entries older
than 60 seconds from both sequences (and keeps the pruned sequences), then
returns true iff the pruned request count is strictly below the
requests-per-minute cap AND the pruned token sum plus `estimated_tokens`
is at most (≤, not strictly below) the tokens-per-minute cap; in
particular it returns false whenever the pruned token sum plus
`estimated_tokens` exceeds `tokens_per_minute`, even when the
request-count budget is unused. -/
theorem can_make_request_characterization (rl : RateLimiter) (now : Timestamp)
    (est : Nat) :
    ((rl.can_make_request now est).1 = true ↔
      ((rl.prune now).request_timestamps.length < rl.requests_per_minute ∧
       (rl.prune now).tokenSum + est ≤ rl.tokens_per_minute)) ∧
    (rl.can_make_request now est).2 = rl.prune now ∧
    (rl.tokens_per_minute < (rl.prune now).tokenSum + est →
      (rl.can_make_request now est).1 = false) := by
  unfold RateLimiter.can_make_request RateLimiter.tokenSum RateLimiter.prune
  dsimp only
  split_ifs with h1 h2 <;> simp_all [RateLimiter.prune]

/-- C5 witness: a limiter with one fresh 10-token entry, a 50-token cap
and an unused request budget rejects an estimate of 41 (10 + 41 > 50). -/
theorem can_make_request_characterization_witness :
    (RateLimiter.can_make_request ⟨2, 50, [], [(0, 10)]⟩ 30 41).1 = false :=
  (can_make_request_characterization ⟨2, 50, [], [(0, 10)]⟩ 30 41).2.2 (by decide)

/-- C9: through the status endpoint, `estimated_completion_time` is
computed only for non-terminal states: 60 for `PENDING`; for
`IN_PROGRESS` it is `(100 − progress) × 0.5` (stated as
`2 × estimate = 100 − progress`; every progress value the workflow stores
is even, and `int((100−progress)*0.5)` agrees with the exact product
there); and it is `None` for `COMPLETED`, `FAILED` and `CANCELLED`. -/
theorem get_try_on_status_estimate (s : SessionDoc)
    (_hle : s.progress_percentage ≤ 100)
    (hev : (100 - s.progress_percentage) % 2 = 0) :
    ∃ v, get_try_on_status (some s) = Except.ok v ∧
      (s.status = TryOnStatus.pending → v.estimated_completion_time = some 60) ∧
      (s.status = TryOnStatus.in_progress →
        ∃ e, v.estimated_completion_time = some e ∧
          2 * e = 100 - s.progress_percentage) ∧
      ((s.status = TryOnStatus.completed ∨ s.status = TryOnStatus.failed ∨
        s.status = TryOnStatus.cancelled) → v.estimated_completion_time = none) := by
  refine ⟨_, rfl, ?_, ?_, ?_⟩ <;> intro h
  · simp [h]
  · refine ⟨(100 - s.progress_percentage) / 2, ?_, by omega⟩
    simp [h]
  · rcases h with h | h | h <;> simp [h]

/-- C9 witness: an `IN_PROGRESS` session at progress 80 yields estimate 10. -/
theorem get_try_on_status_estimate_witness :
    ∃ e, ∃ v,
      get_try_on_status (some
        { session_id := "s1", user_uid := "u1", outfit_id := "o1"
          clothing_item_ids := [], status := TryOnStatus.in_progress
          progress_percentage := 80, generated_image_url := none
          ai_description := none, created_at := 0, started_at := none
          completed_at := none, updated_at := none, error_message := none
          ai_model_used := none, generation_time_seconds := none }) = Except.ok v ∧
      v.estimated_completion_time = some e ∧ 2 * e = 20 := by
  obtain ⟨v, hv, -, hip, -⟩ := get_try_on_status_estimate
    { session_id := "s1", user_uid := "u1", outfit_id := "o1"
      clothing_item_ids := [], status := TryOnStatus.in_progress
      progress_percentage := 80, generated_image_url := none
      ai_description := none, created_at := 0, started_at := none
      completed_at := none, updated_at := none, error_message := none
      ai_model_used := none, generation_time_seconds := none }
    (by decide) (by decide)
  obtain ⟨e, he1, he2⟩ := hip rfl
  exact ⟨e, v, hv, he1, he2⟩

/-- A 201-character response with no brace (so nothing parses as JSON). -/
def longPlainResponse : String := String.mk (List.replicate 201 'a')

set_option maxRecDepth 8192 in
/-- C8 (counterexample): for an unparseable 201-character response the
fallback `overall_assessment` is NOT equal to the raw text truncated to
200 characters — the code appends `"..."` after truncating, so the value
is 203 characters long. -/
theorem parse_compatibility_fallback_counterexample :
    (parse_compatibility_response (fun _ => none) longPlainResponse).overall_assessment ≠
      String.mk (List.replicate 200 'a') ∧
    (parse_compatibility_response (fun _ => none)
      longPlainResponse).overall_assessment.length = 203 := by
  constructor
  · decide
  · decide

/-- C8 (amended): whenever no JSON object is extracted and parsed from the
response (either no `{`...`}` span exists or `json.loads` fails on it),
`analyze_clothing_compatibility`'s parser returns the fixed fallback with
all four scores equal to 7 and `overall_assessment` equal to the raw text
truncated to 200 characters with `"..."` appended (responses of 200
characters or fewer are embedded unchanged), so the embedded assessment is
bounded by 203 characters. -/
theorem parse_compatibility_fallback (jsonLoads : String → Option CompatResult)
    (response : String)
    (h : (extractCandidate response).bind jsonLoads = none) :
    parse_compatibility_response jsonLoads response =
      { compatibility_score := 7, color_harmony := 7, style_coherence := 7
        occasion_appropriateness := 7
        overall_assessment := fallbackAssessment response
        strengths := ["AI analysis available"]
        areas_for_improvement := ["See full response for details"] } ∧
    (fallbackAssessment response).length ≤ 203 ∧
    (response.length ≤ 200 → fallbackAssessment response = response) := by
  refine ⟨?_, ?_, ?_⟩
  · unfold parse_compatibility_response
    rw [h]
  · unfold fallbackAssessment
    split_ifs with hlen
    · have h1 : (String.mk (response.data.take 200)).length = (response.data.take 200).length := rfl
      have h2 : (response.data.take 200).length ≤ 200 := by
        simp [List.length_take_le]
      have h3 : ∀ a b : String, (a ++ b).length = a.length + b.length :=
        fun a b => String.length_append a b
      rw [h3]
      have h4 : ("..." : String).length = 3 := by decide
      omega
    · omega
  · intro hlen
    unfold fallbackAssessment
    split_ifs with hgt
    · omega
    · rfl

/-- C8 witness: a brace-free short response is embedded unchanged in the
fallback. -/
theorem parse_compatibility_fallback_witness :
    parse_compatibility_response (fun _ => none) "hello" =
      { compatibility_score := 7, color_harmony := 7, style_coherence := 7
        occasion_appropriateness := 7
        overall_assessment := fallbackAssessment "hello"
        strengths := ["AI analysis available"]
        areas_for_improvement := ["See full response for details"] } :=
  (parse_compatibility_fallback (fun _ => none) "hello" (by decide)).1

/-- Every element of `ps.map mkInProgress` is an `IN_PROGRESS` update. -/
lemma mem_map_mkInProgress {u : UpdateArgs} {ps : List Nat}
    (h : u ∈ ps.map mkInProgress) : u.status = TryOnStatus.in_progress := by
  obtain ⟨p, -, rfl⟩ := List.mem_map.mp h
  rfl

/-- C6: when the session and outfit exist but zero clothing items resolve,
the task issues exactly `IN_PROGRESS(10)` followed by a `FAILED` update
whose `error_message` is "No clothing items found" and which carries no
progress field, so the session's `progress_percentage` stays at its last
value before the failure (10). -/
theorem generate_task_no_items (env : TaskEnv)
    (hs : ∃ s0, env.session = some s0)
    (ho : ∃ o0, env.outfit = some o0)
    (hitems : env.resolvedItems = []) :
    generate_try_on_image_task env =
      [mkInProgress 10, mkFailed "No clothing items found"] ∧
    (mkFailed "No clothing items found").progress = none ∧
    ∀ (s : SessionDoc) (t1 t2 : Timestamp),
      (applyUpdates s [(t1, mkInProgress 10),
          (t2, mkFailed "No clothing items found")]).status = TryOnStatus.failed ∧
      (applyUpdates s [(t1, mkInProgress 10),
          (t2, mkFailed "No clothing items found")]).error_message =
        some "No clothing items found" ∧
      (applyUpdates s [(t1, mkInProgress 10),
          (t2, mkFailed "No clothing items found")]).progress_percentage =
        (update_session_status s t1 (mkInProgress 10)).progress_percentage ∧
      (applyUpdates s [(t1, mkInProgress 10),
          (t2, mkFailed "No clothing items found")]).progress_percentage = 10 := by
  obtain ⟨s0, hs0⟩ := hs
  obtain ⟨o0, ho0⟩ := ho
  refine ⟨?_, rfl, ?_⟩
  · simp [generate_try_on_image_task, hs0, ho0, hitems]
  · intro s t1 t2
    exact ⟨rfl, rfl, rfl, rfl⟩

/-- C6 witness: a concrete environment with an existing session and outfit
and zero resolved items. -/
theorem generate_task_no_items_witness :
    generate_try_on_image_task
      { session := some (create_session "s1" "u1" "o1" ["i1"] 0)
        outfit := some ⟨["i1"]⟩, resolvedItems := []
        aiAvailable := true, imageGen := Except.ok [0]
        generationTime := 1, savedUrl := some "http://img"
        descriptionGen := Except.ok "d", model := "m", completionTime := 9 } =
      [mkInProgress 10, mkFailed "No clothing items found"] :=
  (generate_task_no_items _ ⟨_, rfl⟩ ⟨_, rfl⟩ rfl).1

/-- C1: with an existing session, a resolvable outfit with at least one
clothing item, the AI gateway available, image generation succeeding and
blob storage reachable, the task drives the session (created `PENDING` at
progress 0) through `IN_PROGRESS(10) → IN_PROGRESS(30) → IN_PROGRESS(50)
→ IN_PROGRESS(80) → COMPLETED(100)`, and the final `COMPLETED` update
carries a non-null `generated_image_url` and a non-null
`ai_description`. -/
theorem generate_task_happy_path (env : TaskEnv)
    (hs : ∃ s0, env.session = some s0)
    (ho : ∃ o0, env.outfit = some o0)
    (hitems : env.resolvedItems ≠ [])
    (hai : env.aiAvailable = true)
    (himg : ∃ bytes, env.imageGen = Except.ok bytes)
    (hurl : ∃ url, env.savedUrl = some url ∧ url ≠ "") :
    (∀ sid uid oid ids t,
      (create_session sid uid oid ids t).status = TryOnStatus.pending ∧
      (create_session sid uid oid ids t).progress_percentage = 0) ∧
    ∃ url desc, url ≠ "" ∧
      generate_try_on_image_task env =
        [mkInProgress 10, mkInProgress 30, mkInProgress 50, mkInProgress 80,
         { status := TryOnStatus.completed, progress := some 100
           error_message := none
           generated_image_url := some url
           ai_description := some desc
           generation_metadata := some
             { ai_model_used := some env.model
               generation_time_seconds := some env.generationTime
               completed_at := some env.completionTime
               has_started_at_key := false } }] ∧
      (generate_try_on_image_task env).map (fun u => (u.status, u.progress)) =
        [(TryOnStatus.in_progress, some 10), (TryOnStatus.in_progress, some 30),
         (TryOnStatus.in_progress, some 50), (TryOnStatus.in_progress, some 80),
         (TryOnStatus.completed, some 100)] := by
  obtain ⟨s0, hs0⟩ := hs
  obtain ⟨o0, ho0⟩ := ho
  obtain ⟨bytes, hb⟩ := himg
  obtain ⟨url, hu, hune⟩ := hurl
  have hne : env.resolvedItems.isEmpty = false := by
    cases h : env.resolvedItems with
    | nil => exact absurd h hitems
    | cons a l => rfl
  refine ⟨fun sid uid oid ids t => ⟨rfl, rfl⟩, ?_⟩
  cases hdesc : env.descriptionGen with
  | ok d =>
    refine ⟨url, d, hune, ?_, ?_⟩ <;>
      simp [generate_try_on_image_task, hs0, ho0, hne, hai, hb, hu, hune, hdesc,
        mkInProgress]
  | error e =>
    refine ⟨url, "Virtual try-on image generated successfully.", hune, ?_, ?_⟩ <;>
      simp [generate_try_on_image_task, hs0, ho0, hne, hai, hb, hu, hune, hdesc,
        mkInProgress]

/-- A concrete clothing-item dict. -/
def itemExample : ClothingItemDict :=
  { id := "i1", name := "Blue Shirt", category := "top", brand := "B"
    colors := ["blue"], size := "M", description := "a shirt"
    tags := [], image_urls := [] }

/-- A concrete happy-path environment (two resolvable items, gateway
available, image generated, blob store reachable). -/
def envHappyExample : TaskEnv :=
  { session := some (create_session "s1" "u1" "o1" ["i1", "i2"] 0)
    outfit := some ⟨["i1", "i2"]⟩
    resolvedItems := [itemExample, { itemExample with id := "i2" }]
    aiAvailable := true, imageGen := Except.ok [7, 7]
    generationTime := 4, savedUrl := some "https://img/s1.jpg"
    descriptionGen := Except.ok "looks great", model := "gemini"
    completionTime := 42 }

/-- C1 witness: the happy-path theorem applied to `envHappyExample`. -/
theorem generate_task_happy_path_witness :
    ∃ url desc, url ≠ "" ∧
      generate_try_on_image_task envHappyExample =
        [mkInProgress 10, mkInProgress 30, mkInProgress 50, mkInProgress 80,
         { status := TryOnStatus.completed, progress := some 100
           error_message := none
           generated_image_url := some url
           ai_description := some desc
           generation_metadata := some
             { ai_model_used := some envHappyExample.model
               generation_time_seconds := some envHappyExample.generationTime
               completed_at := some envHappyExample.completionTime
               has_started_at_key := false } }] ∧
      (generate_try_on_image_task envHappyExample).map (fun u => (u.status, u.progress)) =
        [(TryOnStatus.in_progress, some 10), (TryOnStatus.in_progress, some 30),
         (TryOnStatus.in_progress, some 50), (TryOnStatus.in_progress, some 80),
         (TryOnStatus.completed, some 100)] :=
  (generate_task_happy_path envHappyExample ⟨_, rfl⟩ ⟨_, rfl⟩ (by decide) rfl
    ⟨_, rfl⟩ ⟨_, rfl, by decide⟩).2

/-- C2 (counterexample): `update_session_status` enforces no terminal-state
guard — applying it with status `CANCELLED` to a `COMPLETED` session
changes the stored status. -/
theorem update_after_terminal_counterexample :
    ({ create_session "s1" "u1" "o1" [] 0 with
        status := TryOnStatus.completed } : SessionDoc).status =
      TryOnStatus.completed ∧
    (update_session_status
      { create_session "s1" "u1" "o1" [] 0 with status := TryOnStatus.completed } 20
      { status := TryOnStatus.cancelled, progress := none, error_message := none
        generated_image_url := none, ai_description := none
        generation_metadata := none }).status = TryOnStatus.cancelled ∧
    TryOnStatus.cancelled ≠ TryOnStatus.completed := by
  decide

/-- C2 (amended): `update_session_status` itself has no terminal-state
guard, but within one orchestrator run no update follows a terminal one:
the task's update sequence is a block of `IN_PROGRESS` updates followed by
exactly one final update, and only that final update carries a terminal
status (`FAILED` or `COMPLETED`). -/
theorem generate_task_terminal_only_last (env : TaskEnv) :
    ∃ (ps : List Nat) (lastU : UpdateArgs),
      generate_try_on_image_task env = ps.map mkInProgress ++ [lastU] ∧
      (∀ u ∈ ps.map mkInProgress, u.status = TryOnStatus.in_progress) ∧
      (lastU.status = TryOnStatus.failed ∨ lastU.status = TryOnStatus.completed) := by
  rcases env with ⟨sess, outf, items, ai, img, gt, urlo, desc, mdl, ct⟩
  cases sess with
  | none =>
    exact ⟨[10], mkFailed "Session not found", rfl,
      fun u hu => mem_map_mkInProgress hu, Or.inl rfl⟩
  | some s0 =>
  cases outf with
  | none =>
    exact ⟨[10], mkFailed "Outfit not found", rfl,
      fun u hu => mem_map_mkInProgress hu, Or.inl rfl⟩
  | some o0 =>
  cases items with
  | nil =>
    exact ⟨[10], mkFailed "No clothing items found", rfl,
      fun u hu => mem_map_mkInProgress hu, Or.inl rfl⟩
  | cons it its =>
  cases ai with
  | false =>
    exact ⟨[10, 30], mkFailed "AI service not available", rfl,
      fun u hu => mem_map_mkInProgress hu, Or.inl rfl⟩
  | true =>
  cases img with
  | error e =>
    exact ⟨[10, 30, 50], mkFailed ("Image generation failed: " ++ e), rfl,
      fun u hu => mem_map_mkInProgress hu, Or.inl rfl⟩
  | ok b =>
  cases urlo with
  | none =>
    exact ⟨[10, 30, 50, 80], mkFailed "Failed to save generated image", rfl,
      fun u hu => mem_map_mkInProgress hu, Or.inl rfl⟩
  | some url =>
  by_cases hu : url = ""
  · refine ⟨[10, 30, 50, 80], mkFailed "Failed to save generated image", ?_,
      fun u hu => mem_map_mkInProgress hu, Or.inl rfl⟩
    simp [generate_try_on_image_task, hu]
  · cases desc with
    | ok d =>
      refine ⟨[10, 30, 50, 80],
        { status := TryOnStatus.completed, progress := some 100
          error_message := none, generated_image_url := some url
          ai_description := some d
          generation_metadata := some ⟨some mdl, some gt, some ct, false⟩ }, ?_,
        fun u hu => mem_map_mkInProgress hu, Or.inr rfl⟩
      simp [generate_try_on_image_task, hu]
    | error e =>
      refine ⟨[10, 30, 50, 80],
        { status := TryOnStatus.completed, progress := some 100
          error_message := none, generated_image_url := some url
          ai_description := some "Virtual try-on image generated successfully."
          generation_metadata := some ⟨some mdl, some gt, some ct, false⟩ }, ?_,
        fun u hu => mem_map_mkInProgress hu, Or.inr rfl⟩
      simp [generate_try_on_image_task, hu]

/-- C2 witness: the amended theorem instantiated at the happy-path
environment. -/
theorem generate_task_terminal_only_last_witness :
    ∃ (ps : List Nat) (lastU : UpdateArgs),
      generate_try_on_image_task envHappyExample = ps.map mkInProgress ++ [lastU] ∧
      (∀ u ∈ ps.map mkInProgress, u.status = TryOnStatus.in_progress) ∧
      (lastU.status = TryOnStatus.failed ∨ lastU.status = TryOnStatus.completed) :=
  generate_task_terminal_only_last envHappyExample

/-- C7 (counterexample): `started_at` is not stamped only on the first
transition into `IN_PROGRESS` — the guard checks the update payload, not
the stored document, so a second `IN_PROGRESS` update overwrites the
previously stored `started_at` (here `some 1` becomes `some 2`). -/
theorem started_at_overwrite_counterexample :
    (update_session_status (create_session "s1" "u1" "o1" [] 0) 1
      (mkInProgress 10)).started_at = some 1 ∧
    (update_session_status
      (update_session_status (create_session "s1" "u1" "o1" [] 0) 1
        (mkInProgress 10)) 2
      (mkInProgress 30)).started_at = some 2 ∧
    some (2 : Timestamp) ≠ some (1 : Timestamp) := by
  decide

/-- `applyProgress` does not touch the timestamp fields. -/
lemma applyProgress_started_at (pr : Option Nat) (s : SessionDoc) :
    (applyProgress pr s).started_at = s.started_at ∧
    (applyProgress pr s).completed_at = s.completed_at := by
  cases pr <;> exact ⟨rfl, rfl⟩

/-- `applyErrorMessage` does not touch the timestamp fields. -/
lemma applyErrorMessage_started_at (em : Option String) (s : SessionDoc) :
    (applyErrorMessage em s).started_at = s.started_at ∧
    (applyErrorMessage em s).completed_at = s.completed_at := by
  cases em with
  | none => exact ⟨rfl, rfl⟩
  | some e =>
    simp only [applyErrorMessage]
    split_ifs <;> exact ⟨rfl, rfl⟩

/-- `applyImageUrl` with a truthy URL stamps `completed_at`; it never
touches `started_at`. -/
lemma applyImageUrl_timestamps (gu : Option String) (now : Timestamp)
    (s : SessionDoc) :
    (applyImageUrl gu now s).started_at = s.started_at ∧
    ∀ u, gu = some u → u ≠ "" → (applyImageUrl gu now s).completed_at = some now := by
  cases gu with
  | none => exact ⟨rfl, fun u hu => by cases hu⟩
  | some v =>
    constructor
    · simp only [applyImageUrl]
      split_ifs <;> rfl
    · intro u hu hune
      cases hu
      simp only [applyImageUrl]
      rw [if_pos hune]

/-- `applyDescription` does not touch the timestamp fields. -/
lemma applyDescription_started_at (ad : Option String) (s : SessionDoc) :
    (applyDescription ad s).started_at = s.started_at ∧
    (applyDescription ad s).completed_at = s.completed_at := by
  cases ad with
  | none => exact ⟨rfl, rfl⟩
  | some d =>
    simp only [applyDescription]
    split_ifs <;> exact ⟨rfl, rfl⟩

/-- `applyMetadata` never touches `started_at`. -/
lemma applyMetadata_started_at (gm : Option GenerationMetadata) (s : SessionDoc) :
    (applyMetadata gm s).started_at = s.started_at := by
  cases gm with
  | none => rfl
  | some m =>
    rcases m with ⟨mau, mgt, mca, mhs⟩
    cases mau <;> cases mgt <;> cases mca <;> rfl

/-- `applyMetadata` leaves `completed_at` alone when the metadata dict
carries no `completed_at` value. -/
lemma applyMetadata_completed_at_of_none (gm : Option GenerationMetadata)
    (s : SessionDoc) (h : gm.bind (fun m => m.completed_at) = none) :
    (applyMetadata gm s).completed_at = s.completed_at := by
  cases gm with
  | none => rfl
  | some m =>
    rcases m with ⟨mau, mgt, mca, mhs⟩
    cases mau <;> cases mgt <;> cases mca <;> simp_all [applyMetadata]

/-- `applyMetadata` overwrites `completed_at` with the metadata value when
one is present. -/
lemma applyMetadata_completed_at_of_some (gm : Option GenerationMetadata)
    (s : SessionDoc) (v : Timestamp)
    (h : gm.bind (fun m => m.completed_at) = some v) :
    (applyMetadata gm s).completed_at = some v := by
  cases gm with
  | none => simp at h
  | some m =>
    rcases m with ⟨mau, mgt, mca, mhs⟩
    cases mau <;> cases mgt <;> cases mca <;> simp_all [applyMetadata]

/-- `applyStartedAt` never touches `completed_at`. -/
lemma applyStartedAt_completed_at (status : TryOnStatus)
    (gm : Option GenerationMetadata) (now : Timestamp) (s : SessionDoc) :
    (applyStartedAt status gm now s).completed_at = s.completed_at := by
  simp only [applyStartedAt]
  split_ifs <;> rfl

/-- `applyStartedAt` stamps `started_at` whenever the status is
`IN_PROGRESS` and the payload has no `started_at` key. -/
lemma applyStartedAt_stamps (status : TryOnStatus)
    (gm : Option GenerationMetadata) (now : Timestamp) (s : SessionDoc)
    (h1 : status = TryOnStatus.in_progress)
    (h2 : metadataHasStartedAt gm = false) :
    (applyStartedAt status gm now s).started_at = some now := by
  simp only [applyStartedAt]
  rw [if_pos ⟨h1, h2⟩]

/-- C7 (amended): every `update_session_status` call whose status is
`IN_PROGRESS` (and whose metadata payload carries no `started_at` key, as
in every call this repository makes) stamps `started_at` with the current
time — overwriting any previously stored value rather than preserving it —
and every update that sets a non-empty `generated_image_url` also stamps
`completed_at`. -/
theorem update_session_status_timestamps :
    (∀ (s : SessionDoc) (now : Timestamp) (a : UpdateArgs),
      a.status = TryOnStatus.in_progress →
      metadataHasStartedAt a.generation_metadata = false →
      (update_session_status s now a).started_at = some now) ∧
    (∀ (s : SessionDoc) (now : Timestamp) (a : UpdateArgs) (u : String),
      a.generated_image_url = some u → u ≠ "" →
      (update_session_status s now a).completed_at ≠ none) := by
  constructor
  · intro s now a h1 h2
    unfold update_session_status
    exact applyStartedAt_stamps _ _ _ _ h1 h2
  · intro s now a u hgu hune
    unfold update_session_status
    rw [applyStartedAt_completed_at]
    have hbase :
        (applyDescription a.ai_description
          (applyImageUrl a.generated_image_url now
            (applyErrorMessage a.error_message
              (applyProgress a.progress
                { s with status := a.status, updated_at := some now })))).completed_at =
          some now := by
      rw [(applyDescription_started_at _ _).2]
      exact (applyImageUrl_timestamps _ now _).2 u hgu hune
    cases hb : a.generation_metadata.bind (fun m => m.completed_at) with
    | none =>
      rw [applyMetadata_completed_at_of_none _ _ hb, hbase]
      exact Option.some_ne_none now
    | some v =>
      rw [applyMetadata_completed_at_of_some _ _ _ hb]
      exact Option.some_ne_none v

/-- C7 witness: the amended theorem at a concrete second `IN_PROGRESS`
update. -/
theorem update_session_status_timestamps_witness :
    (update_session_status
      (update_session_status (create_session "s1" "u1" "o1" [] 0) 1
        (mkInProgress 10)) 2
      (mkInProgress 30)).started_at = some 2 :=
  update_session_status_timestamps.1 _ 2 (mkInProgress 30) rfl rfl

/-- `can_make_request` on empty window sequences with room in both caps
admits the request and leaves the (already empty) sequences unchanged. -/
lemma can_make_request_empty (rpm tpm : Nat) (now : Timestamp) (est : Nat)
    (hr : 0 < rpm) (ht : est ≤ tpm) :
    RateLimiter.can_make_request ⟨rpm, tpm, [], []⟩ now est =
      (true, ⟨rpm, tpm, [], []⟩) := by
  unfold RateLimiter.can_make_request RateLimiter.prune
  simp only [List.filter_nil, List.length_nil, List.map_nil, List.sum_nil]
  rw [if_neg (by omega), if_neg (by omega)]

/-- A transport-failing attempt on an empty-window state: the error is
re-raised, one failed usage entry is appended, and the rate-limiter
window is not consumed. -/
lemma attempt_transport_error (mdl : String) (hist : List AIUsage)
    (rpm tpm : Nat) (now : Timestamp) (prompt e : String)
    (hr : 0 < rpm) (ht : 100 ≤ tpm) :
    AIServiceState.make_ai_request_attempt ⟨true, mdl, ⟨rpm, tpm, [], []⟩, hist⟩
        now prompt (Except.error e) =
      (Except.error e,
       ⟨true, mdl, ⟨rpm, tpm, [], []⟩,
        hist ++ [⟨now, mdl, if prompt ≠ "" then wordCount prompt else 0, 0, 0,
                 false, some e⟩]⟩) := by
  unfold AIServiceState.make_ai_request_attempt
  rw [can_make_request_empty rpm tpm now 100 hr ht]
  rfl

/-- A transport-succeeding attempt (non-empty response text) on an
empty-window state: the text is returned, the word-count token estimate is
recorded in the window, and one successful usage entry is appended. -/
lemma attempt_transport_ok (mdl : String) (hist : List AIUsage)
    (rpm tpm : Nat) (now : Timestamp) (prompt txt : String)
    (hr : 0 < rpm) (ht : 100 ≤ tpm) (htxt : txt ≠ "") :
    AIServiceState.make_ai_request_attempt ⟨true, mdl, ⟨rpm, tpm, [], []⟩, hist⟩
        now prompt (Except.ok txt) =
      (Except.ok txt,
       ⟨true, mdl,
        ⟨rpm, tpm, [now], [(now, wordCount prompt + wordCount txt)]⟩,
        hist ++ [⟨now, mdl, if prompt ≠ "" then wordCount prompt else 0,
                 wordCount prompt + wordCount txt,
                 wordCount prompt + wordCount txt, true, none⟩]⟩) := by
  unfold AIServiceState.make_ai_request_attempt
  rw [can_make_request_empty rpm tpm now 100 hr ht]
  dsimp only
  rw [if_pos htxt]
  rfl

/-- C3 (counterexample): when all three attempts fail, the usage log does
not receive exactly one `success=false` entry — the `finally` block runs
once per attempt (the retry decorator re-executes the whole body), so
three failed entries are recorded. -/
theorem retry_usage_counterexample :
    (AIServiceState.make_ai_request ⟨true, "m", ⟨10, 1000, [], []⟩, []⟩ "p"
        (0, Except.error "boom") (1, Except.error "boom")
        (2, Except.error "boom")).1 = Except.error "boom" ∧
    ((AIServiceState.make_ai_request ⟨true, "m", ⟨10, 1000, [], []⟩, []⟩ "p"
        (0, Except.error "boom") (1, Except.error "boom")
        (2, Except.error "boom")).2.1.usage_history.filter
        (fun u => !u.success)).length = 3 ∧
    (3 : Nat) ≠ 1 := by
  decide

/-- C3 (amended): `_make_ai_request` records one usage entry per attempt.
A call whose transport fails twice and succeeds on the third attempt
returns the successful result and appends three entries — two with
`success=false` and exactly one with `success=true`; a call whose three
attempts all fail propagates the failure and appends three entries with
`success=false` (not one). -/
theorem retry_usage_per_attempt :
    (∀ (mdl : String) (hist : List AIUsage) (rpm tpm : Nat)
       (t1 t2 t3 : Timestamp) (e1 e2 prompt txt : String),
       0 < rpm → 100 ≤ tpm → txt ≠ "" →
       ∃ l, AIServiceState.make_ai_request ⟨true, mdl, ⟨rpm, tpm, [], []⟩, hist⟩
           prompt (t1, Except.error e1) (t2, Except.error e2)
           (t3, Except.ok txt) =
         (Except.ok txt,
          ⟨true, mdl, ⟨rpm, tpm, [t3], [(t3, wordCount prompt + wordCount txt)]⟩,
           hist ++ l⟩, 3) ∧
         l.map AIUsage.success = [false, false, true]) ∧
    (∀ (mdl : String) (hist : List AIUsage) (rpm tpm : Nat)
       (t1 t2 t3 : Timestamp) (e1 e2 e3 prompt : String),
       0 < rpm → 100 ≤ tpm →
       ∃ l, AIServiceState.make_ai_request ⟨true, mdl, ⟨rpm, tpm, [], []⟩, hist⟩
           prompt (t1, Except.error e1) (t2, Except.error e2)
           (t3, Except.error e3) =
         (Except.error e3, ⟨true, mdl, ⟨rpm, tpm, [], []⟩, hist ++ l⟩, 3) ∧
         l.map AIUsage.success = [false, false, false]) := by
  constructor
  · intro mdl hist rpm tpm t1 t2 t3 e1 e2 prompt txt hr ht htxt
    refine ⟨[⟨t1, mdl, if prompt ≠ "" then wordCount prompt else 0, 0, 0,
             false, some e1⟩,
            ⟨t2, mdl, if prompt ≠ "" then wordCount prompt else 0, 0, 0,
             false, some e2⟩,
            ⟨t3, mdl, if prompt ≠ "" then wordCount prompt else 0,
             wordCount prompt + wordCount txt,
             wordCount prompt + wordCount txt, true, none⟩], ?_, rfl⟩
    unfold AIServiceState.make_ai_request
    rw [attempt_transport_error mdl hist rpm tpm t1 prompt e1 hr ht]
    dsimp only
    rw [attempt_transport_error mdl _ rpm tpm t2 prompt e2 hr ht]
    dsimp only
    rw [attempt_transport_ok mdl _ rpm tpm t3 prompt txt hr ht htxt]
    simp [List.append_assoc]
  · intro mdl hist rpm tpm t1 t2 t3 e1 e2 e3 prompt hr ht
    refine ⟨[⟨t1, mdl, if prompt ≠ "" then wordCount prompt else 0, 0, 0,
             false, some e1⟩,
            ⟨t2, mdl, if prompt ≠ "" then wordCount prompt else 0, 0, 0,
             false, some e2⟩,
            ⟨t3, mdl, if prompt ≠ "" then wordCount prompt else 0, 0, 0,
             false, some e3⟩], ?_, rfl⟩
    unfold AIServiceState.make_ai_request
    rw [attempt_transport_error mdl hist rpm tpm t1 prompt e1 hr ht]
    dsimp only
    rw [attempt_transport_error mdl _ rpm tpm t2 prompt e2 hr ht]
    dsimp only
    rw [attempt_transport_error mdl _ rpm tpm t3 prompt e3 hr ht]
    simp [List.append_assoc]

/-- C3 witness: a fail-fail-succeed run at a concrete state. -/
theorem retry_usage_per_attempt_witness :
    ∃ l, AIServiceState.make_ai_request ⟨true, "m", ⟨5, 500, [], []⟩, []⟩
        "p q" (0, Except.error "x") (1, Except.error "y")
        (2, Except.ok "fine") =
      (Except.ok "fine",
       ⟨true, "m", ⟨5, 500, [2], [(2, wordCount "p q" + wordCount "fine")]⟩,
        [] ++ l⟩, 3) ∧
      l.map AIUsage.success = [false, false, true] :=
  retry_usage_per_attempt.1 "m" [] 5 500 0 1 2 "x" "y" "p q" "fine"
    (by decide) (by decide) (by decide)

/-- When the token budget can never admit the fixed 100-token estimate,
`can_make_request` rejects (regardless of the request-count check) and
returns the pruned limiter. -/
lemma can_make_request_token_starved (rl : RateLimiter) (now : Timestamp)
    (ht : rl.tokens_per_minute < 100) :
    rl.can_make_request now 100 = (false, rl.prune now) := by
  have hcap : (rl.prune now).tokens_per_minute = rl.tokens_per_minute := rfl
  unfold RateLimiter.can_make_request
  dsimp only
  split_ifs with h1 h2
  · rfl
  · rfl
  · exact absurd (by omega) h2

/-- A rate-limited attempt: the rate-limit error is raised before the
`try` block, so no transport call happens, no usage entry is recorded and
no budget is consumed (the window is only pruned). -/
lemma attempt_rate_limited (st : AIServiceState) (now : Timestamp)
    (prompt : String) (tr : TextTransport)
    (hav : st.available = true)
    (ht : st.rateLimiter.tokens_per_minute < 100) :
    st.make_ai_request_attempt now prompt tr =
      (Except.error rateLimitError,
       { st with rateLimiter := st.rateLimiter.prune now }) := by
  unfold AIServiceState.make_ai_request_attempt
  rw [hav, can_make_request_token_starved st.rateLimiter now ht]

/-- C4 (counterexample): a gateway call made while the limiter's budget
is exhausted is NOT failed fast outside the retry loop — the rate-limit
check sits inside the retried function, so the rate-limit error is itself
retried (with backoff) and the call makes all 3 attempts before the error
propagates, rather than the 1 attempt the claim implies. -/
theorem rate_limit_retry_counterexample :
    (AIServiceState.make_ai_request ⟨true, "m", ⟨0, 1000, [], []⟩, []⟩ "p"
        (0, Except.ok "hi") (1, Except.ok "hi") (2, Except.ok "hi")).1 =
      Except.error rateLimitError ∧
    (AIServiceState.make_ai_request ⟨true, "m", ⟨0, 1000, [], []⟩, []⟩ "p"
        (0, Except.ok "hi") (1, Except.ok "hi") (2, Except.ok "hi")).2.2 = 3 ∧
    (3 : Nat) ≠ 1 := by
  decide

/-- C4 (amended): with the budget exhausted throughout (here: a token cap
below the fixed 100-token estimate), `_make_ai_request` raises the
distinct rate-limit error before any transport call — so no usage entry
is recorded and no window budget is consumed (the sequences are only
pruned) — but, because the check lives inside the retry-decorated
function, the error is retried up to the 3-attempt cap (with backoff)
before being propagated, rather than failing fast without consuming
retry attempts. -/
theorem rate_limited_call (st : AIServiceState) (prompt : String)
    (o1 o2 o3 : Timestamp × TextTransport)
    (hav : st.available = true)
    (ht : st.rateLimiter.tokens_per_minute < 100) :
    (st.make_ai_request prompt o1 o2 o3).1 = Except.error rateLimitError ∧
    (st.make_ai_request prompt o1 o2 o3).2.1.usage_history = st.usage_history ∧
    (st.make_ai_request prompt o1 o2 o3).2.2 = 3 ∧
    (st.make_ai_request prompt o1 o2 o3).2.1.rateLimiter.request_timestamps.Sublist
      st.rateLimiter.request_timestamps ∧
    (st.make_ai_request prompt o1 o2 o3).2.1.rateLimiter.token_usage.Sublist
      st.rateLimiter.token_usage := by
  have h1 := attempt_rate_limited st o1.1 prompt o1.2 hav ht
  have h2 := attempt_rate_limited { st with rateLimiter := st.rateLimiter.prune o1.1 }
    o2.1 prompt o2.2 hav ht
  have h3 := attempt_rate_limited
    { st with rateLimiter := (st.rateLimiter.prune o1.1).prune o2.1 }
    o3.1 prompt o3.2 hav ht
  have hrun : st.make_ai_request prompt o1 o2 o3 =
      (Except.error rateLimitError,
       { st with rateLimiter := ((st.rateLimiter.prune o1.1).prune o2.1).prune o3.1 },
       3) := by
    unfold AIServiceState.make_ai_request
    rw [h1]
    dsimp only
    rw [h2]
    dsimp only
    rw [h3]
  rw [hrun]
  refine ⟨rfl, rfl, rfl, ?_, ?_⟩
  · exact ((List.filter_sublist _).trans (List.filter_sublist _)).trans
      (List.filter_sublist _)
  · exact ((List.filter_sublist _).trans (List.filter_sublist _)).trans
      (List.filter_sublist _)

/-- C4 witness: a concrete starved limiter (cap 50 < 100). -/
theorem rate_limited_call_witness :
    (AIServiceState.make_ai_request ⟨true, "m", ⟨5, 50, [], []⟩, []⟩ "p"
        (0, Except.ok "hi") (1, Except.ok "hi") (2, Except.ok "hi")).1 =
      Except.error rateLimitError ∧
    (AIServiceState.make_ai_request ⟨true, "m", ⟨5, 50, [], []⟩, []⟩ "p"
        (0, Except.ok "hi") (1, Except.ok "hi") (2, Except.ok "hi")).2.1.usage_history = [] ∧
    (AIServiceState.make_ai_request ⟨true, "m", ⟨5, 50, [], []⟩, []⟩ "p"
        (0, Except.ok "hi") (1, Except.ok "hi") (2, Except.ok "hi")).2.2 = 3 :=
  have h := rate_limited_call ⟨true, "m", ⟨5, 50, [], []⟩, []⟩ "p"
    (0, Except.ok "hi") (1, Except.ok "hi") (2, Except.ok "hi") rfl (by decide)
  ⟨h.1, h.2.1, h.2.2.1⟩

/-- A prompt of 101 whitespace-separated words, whose word-count token
usage alone exceeds a 100-token budget. -/
def bigPrompt : String := String.mk ((List.replicate 101 ['w', ' ']).flatten)

set_option maxRecDepth 8192 in
/-- C10: both `_make_ai_request` and `_make_ai_image_request` invoke the
rate-limit admission check with the fixed default estimate of 100 tokens,
independent of the prompt: whenever `can_make_request(100)` rejects, the
attempt fails with the rate-limit error for every prompt and transport
outcome; and consequently a call whose real word-count-based usage
exceeds the remaining budget can still be admitted as long as the
window's token sum plus 100 does not exceed `tokens_per_minute` (the
final conjunct exhibits such an over-budget admission). -/
theorem admission_uses_fixed_estimate :
    (∀ (st : AIServiceState) (now : Timestamp) (prompt : String)
       (tr : TextTransport),
      st.available = true →
      (st.rateLimiter.can_make_request now 100).1 = false →
      st.make_ai_request_attempt now prompt tr =
        (Except.error rateLimitError,
         { st with rateLimiter := (st.rateLimiter.can_make_request now 100).2 })) ∧
    (∀ (st : AIServiceState) (now : Timestamp) (prompt : String)
       (b64 : String → Option (List Nat)) (tr : ImageTransport),
      st.available = true →
      (st.rateLimiter.can_make_request now 100).1 = false →
      st.make_ai_image_request_attempt now prompt b64 tr =
        (Except.error rateLimitError,
         { st with rateLimiter := (st.rateLimiter.can_make_request now 100).2 })) ∧
    (∃ (st : AIServiceState) (prompt txt : String) (now : Timestamp),
      st.available = true ∧
      (st.rateLimiter.can_make_request now 100).1 = true ∧
      st.rateLimiter.tokens_per_minute <
        (st.rateLimiter.prune now).tokenSum + (wordCount prompt + wordCount txt) ∧
      (st.make_ai_request_attempt now prompt (Except.ok txt)).1 = Except.ok txt ∧
      st.rateLimiter.tokens_per_minute <
        (st.make_ai_request_attempt now prompt (Except.ok txt)).2.rateLimiter.tokenSum) := by
  refine ⟨?_, ?_, ?_⟩
  · intro st now prompt tr hav hgate
    unfold AIServiceState.make_ai_request_attempt
    rcases hc : st.rateLimiter.can_make_request now 100 with ⟨b, rl⟩
    rw [hc] at hgate
    dsimp only at hgate
    subst hgate
    rw [hav]
  · intro st now prompt b64 tr hav hgate
    unfold AIServiceState.make_ai_image_request_attempt
    rcases hc : st.rateLimiter.can_make_request now 100 with ⟨b, rl⟩
    rw [hc] at hgate
    dsimp only at hgate
    subst hgate
    rw [hav]
  · refine ⟨⟨true, "m", ⟨1, 100, [], []⟩, []⟩, bigPrompt, "x", 0, rfl, ?_, ?_, ?_, ?_⟩ <;>
      decide

/-- C10 witness: a rejected admission at an exhausted concrete state, for
an arbitrary prompt and a transport that would have succeeded. -/
theorem admission_uses_fixed_estimate_witness :
    AIServiceState.make_ai_image_request_attempt ⟨true, "m", ⟨0, 50, [], []⟩, []⟩
        0 "p" (fun _ => none) (Except.ok []) =
      (Except.error rateLimitError,
       { (⟨true, "m", ⟨0, 50, [], []⟩, []⟩ : AIServiceState) with
         rateLimiter :=
           ((⟨0, 50, [], []⟩ : RateLimiter).can_make_request 0 100).2 }) :=
  admission_uses_fixed_estimate.2.1 ⟨true, "m", ⟨0, 50, [], []⟩, []⟩ 0 "p"
    (fun _ => none) (Except.ok []) rfl (by decide)

end Ponpa
